import Mathlib

/-!
# Verification of the SQLite MCP server (`main.py`)

A shallow embedding of the statement-building and envelope-wrapping layer of
`src/mcp-sqlite-server-nsdg/main.py`.  Pure SQL-text construction is embedded
as Lean string functions; the embedded SQLite engine, the filesystem, and
Python exceptions are modelled explicitly (an engine call either returns a
result or raises, which the handler catches).

Python `dict` arguments iterate in insertion order, so a `data : dict` is
embedded as an association list `List (String × Value)` whose order is the
mapping's iteration order.
-/

namespace SqliteMcp

/-- A scalar value bound to a SQL placeholder (SQLite's NULL / INTEGER / TEXT
as far as the claims need). -/
inductive Value where
  | null : Value
  | int (i : Int) : Value
  | str (s : String) : Value
  deriving DecidableEq, Repr

/-- A row as returned by `sqlite3.Row` converted with `dict(row)`: column
names paired with values, in column order. -/
def Row : Type := List (String × Value)

instance : DecidableEq Row := inferInstanceAs (DecidableEq (List (String × Value)))

/-- A built statement: SQL text plus the positionally bound parameter list
(the `sql` and `values` the Python code hands to `conn.execute`). -/
structure Stmt where
  sql : String
  values : List Value
  deriving DecidableEq, Repr

/-- Python's `sep.join(xs)`: the empty string on `[]`, otherwise the items
interleaved with `sep`. -/
def joinSep (sep : String) : List String → String
  | [] => ""
  | [x] => x
  | x :: y :: xs => x ++ sep ++ joinSep sep (y :: xs)

/-- `create_record`, lines 183–187: `cols = ", ".join(data.keys())`,
`placeholders = ", ".join(["?"] * len(data))`,
`sql = f"INSERT INTO {table} ({cols}) VALUES ({placeholders})"`,
bound values `list(data.values())`. -/
def create_record_stmt (table : String) (data : List (String × Value)) : Stmt :=
  let cols := joinSep ", " (data.map Prod.fst)
  let placeholders := joinSep ", " (List.replicate data.length "?")
  { sql := "INSERT INTO " ++ table ++ " (" ++ cols ++ ") VALUES (" ++ placeholders ++ ")"
    values := data.map Prod.snd }

/-- `read_records`, lines 206–216: start from `SELECT * FROM {table}`; if the
`conditions` dict is truthy (non-empty) append
`WHERE k1=? AND k2=? ...` and extend the values with the condition values;
then `if limit is not None` append ` LIMIT {limit}` and, nested inside, `if
offset is not None` append ` OFFSET {offset}` (limit/offset interpolated as
literal text). -/
def read_records_stmt (table : String) (conditions : List (String × Value))
    (limit offset : Option Int) : Stmt :=
  let sql := "SELECT * FROM " ++ table
  let values : List Value := []
  let (sql, values) :=
    if conditions.isEmpty then (sql, values)
    else (sql ++ " WHERE " ++ joinSep " AND " (conditions.map (fun kv => kv.1 ++ "=?")),
          values ++ conditions.map Prod.snd)
  let sql :=
    match limit with
    | none => sql
    | some n =>
      let sql := sql ++ " LIMIT " ++ toString n
      match offset with
      | none => sql
      | some m => sql ++ " OFFSET " ++ toString m
  { sql := sql, values := values }

/-- `update_records`, lines 237–241:
`set_clause = ", ".join(f"{k}=?" ...)`, `where_clause = " AND ".join(f"{k}=?" ...)`,
`sql = f"UPDATE {table} SET {set_clause} WHERE {where_clause}"`,
`values = list(data.values()) + list(conditions.values())`. -/
def update_records_stmt (table : String) (data conditions : List (String × Value)) : Stmt :=
  let set_clause := joinSep ", " (data.map (fun kv => kv.1 ++ "=?"))
  let where_clause := joinSep " AND " (conditions.map (fun kv => kv.1 ++ "=?"))
  { sql := "UPDATE " ++ table ++ " SET " ++ set_clause ++ " WHERE " ++ where_clause
    values := data.map Prod.snd ++ conditions.map Prod.snd }

/-- `delete_records`, lines 261–264:
`where_clause = " AND ".join(f"{k}=?" ...)`,
`sql = f"DELETE FROM {table} WHERE {where_clause}"`,
bound values `list(conditions.values())`. -/
def delete_records_stmt (table : String) (conditions : List (String × Value)) : Stmt :=
  let where_clause := joinSep " AND " (conditions.map (fun kv => kv.1 ++ "=?"))
  { sql := "DELETE FROM " ++ table ++ " WHERE " ++ where_clause
    values := conditions.map Prod.snd }

/-- `SQLiteHandler.list_tables`, line 67: the fixed catalog query text. -/
def listTablesSql : String :=
  "SELECT name FROM sqlite_master WHERE type='table' AND name NOT LIKE 'sqlite_%'"

/-- `get_table_schema`, line 72: `PRAGMA table_info({table_name})`. -/
def table_schema_stmt (table_name : String) : Stmt :=
  { sql := "PRAGMA table_info(" ++ table_name ++ ")", values := [] }

/-! ## Engine and exception model

`conn.execute` either returns a cursor or raises (malformed SQL, missing
table, constraint violation, …).  An engine call is modelled as returning
either a value or an exception message. -/

/-- Outcome of a call into the sqlite3 driver: a result, or a raised
exception carrying its message text. -/
inductive EngineReply (α : Type) where
  | ok (a : α) : EngineReply α
  | err (msg : String) : EngineReply α
  deriving DecidableEq, Repr

/-- Whether the driver call raised. -/
def EngineReply.isErr : EngineReply α → Bool
  | .ok _ => false
  | .err _ => true

/-- What `cur.lastrowid` / `conn.total_changes` yield after a successful
write: the fields of the `{"lastID": ..., "changes": ...}` dict built by
`execute_run`. -/
structure RunResult where
  lastID : Int
  changes : Int
  deriving DecidableEq, Repr

/-- `SQLiteHandler.execute_query`, lines 41–51: runs the statement, returning
`(True, rows-as-dicts)`; any exception is caught and `(False, [])` is
returned. -/
def execute_query (reply : EngineReply (List Row)) : Bool × List Row :=
  match reply with
  | .ok rows => (true, rows)
  | .err _ => (false, [])

/-- `SQLiteHandler.execute_run`, lines 53–63: runs the statement and commits,
returning `(True, {"lastID": cur.lastrowid, "changes": conn.total_changes})`;
any exception is caught and `(False, {})` is returned (the empty dict is
modelled as `none`). -/
def execute_run (reply : EngineReply RunResult) : Bool × Option RunResult :=
  match reply with
  | .ok r => (true, some r)
  | .err _ => (false, none)

/-! ## Response envelopes

Every tool returns `{"content": [{"type": "text", "text": ...}]}`, with
`"isError": True` added on failure.  The `text` field is always a string in
the Python code (`json.dumps(payload)` or a fixed message or `str(e)`); it is
modelled structurally, as the value that gets serialized. -/

/-- The data serialized into a content item's `text` field. -/
inductive TextVal where
  /-- `json.dumps` of the `db_info` metadata dict
  `{dbPath, exists, size, lastModified, tableCount}`. -/
  | infoData (dbPath : String) (fileExists : Bool) (size : Nat)
      (lastModified : Option Int) (tableCount : Nat) : TextVal
  /-- `json.dumps` of a list of row dicts. -/
  | rows (rs : List Row) : TextVal
  /-- `json.dumps` of an `execute_run` result dict. -/
  | runInfo (r : Option RunResult) : TextVal
  /-- A fixed message such as `"Insert operation failed."`, or `str(e)`. -/
  | msg (s : String) : TextVal
  deriving DecidableEq

/-- One entry of the `content` array: `{"type": ..., "text": ...}`. -/
structure ContentItem where
  itemType : String
  text : TextVal
  deriving DecidableEq

/-- A tool response: `{"content": [...]}`, optionally with an `"isError"`
key (its absence is `none`). -/
structure Envelope where
  content : List ContentItem
  isError : Option Bool := none
  deriving DecidableEq

/-- A success response: `{"content": [{"type": "text", "text": payload}]}`,
with no `isError` key. -/
def successEnv (payload : TextVal) : Envelope :=
  { content := [{ itemType := "text", text := payload }] }

/-- A failure response:
`{"content": [{"type": "text", "text": message}], "isError": True}`. -/
def failureEnv (message : String) : Envelope :=
  { content := [{ itemType := "text", text := .msg message }], isError := some true }

/-! ## Tool operations

Each `@mcp.tool()` function constructs a `SQLiteHandler` — i.e. calls
`sqlite3.connect(db_path)`, which can raise (caught by the tool's outer
`try/except`, which returns `{text: str(e), isError: True}`) — then builds
its statement and runs it through the handler.  The driver is passed in as a
function from the statement to a reply; write tools additionally thread an
abstract database state `σ` through the driver call, so that "the database
is unchanged" is expressible. -/

/-- `query`, lines 116–135: runs the caller's raw SQL through
`execute_query`; on engine failure returns the fixed failure message, on an
exception from `sqlite3.connect` returns `str(e)`. -/
def query (sql : String) (values : List Value) (connect : EngineReply Unit)
    (engineQuery : Stmt → EngineReply (List Row)) : Envelope :=
  match connect with
  | .err e => failureEnv e
  | .ok _ =>
    let (status, results) := execute_query (engineQuery { sql := sql, values := values })
    if status then successEnv (.rows results)
    else failureEnv "Query execution failed."

/-- `listing_tables`, lines 139–153: runs the fixed catalog query via
`SQLiteHandler.list_tables`. -/
def listing_tables (connect : EngineReply Unit)
    (engineQuery : Stmt → EngineReply (List Row)) : Envelope :=
  match connect with
  | .err e => failureEnv e
  | .ok _ =>
    let (status, tables) := execute_query (engineQuery { sql := listTablesSql, values := [] })
    if status then successEnv (.rows tables)
    else failureEnv "Failed to list tables."

/-- `get_table_schema`, lines 157–172: runs `PRAGMA table_info(...)` with the
table name interpolated. -/
def get_table_schema (tableName : String) (connect : EngineReply Unit)
    (engineQuery : Stmt → EngineReply (List Row)) : Envelope :=
  match connect with
  | .err e => failureEnv e
  | .ok _ =>
    let (status, schema) := execute_query (engineQuery (table_schema_stmt tableName))
    if status then successEnv (.rows schema)
    else failureEnv "Failed to get table schema."

/-- `read_records`, lines 199–226: builds the SELECT with optional WHERE /
LIMIT / OFFSET and runs it through `execute_query`. -/
def read_records (table : String) (conditions : List (String × Value))
    (limit offset : Option Int) (connect : EngineReply Unit)
    (engineQuery : Stmt → EngineReply (List Row)) : Envelope :=
  match connect with
  | .err e => failureEnv e
  | .ok _ =>
    let (status, results) := execute_query (engineQuery (read_records_stmt table conditions limit offset))
    if status then successEnv (.rows results)
    else failureEnv "Failed to read records."

/-- `create_record`, lines 176–195: builds the INSERT and runs it through
`execute_run`; the driver call may update the database state `st`. -/
def create_record {σ : Type} (table : String) (data : List (String × Value))
    (connect : EngineReply Unit)
    (engineRun : Stmt → σ → EngineReply RunResult × σ) (st : σ) : Envelope × σ :=
  match connect with
  | .err e => (failureEnv e, st)
  | .ok _ =>
    let (reply, st') := engineRun (create_record_stmt table data) st
    let (status, result) := execute_run reply
    if status then (successEnv (.runInfo result), st')
    else (failureEnv "Insert operation failed.", st')

/-- `update_records`, lines 230–250: builds the UPDATE and runs it through
`execute_run`. -/
def update_records {σ : Type} (table : String) (data conditions : List (String × Value))
    (connect : EngineReply Unit)
    (engineRun : Stmt → σ → EngineReply RunResult × σ) (st : σ) : Envelope × σ :=
  match connect with
  | .err e => (failureEnv e, st)
  | .ok _ =>
    let (reply, st') := engineRun (update_records_stmt table data conditions) st
    let (status, result) := execute_run reply
    if status then (successEnv (.runInfo result), st')
    else (failureEnv "Update operation failed.", st')

/-- `delete_records`, lines 254–272: builds the DELETE and runs it through
`execute_run`. -/
def delete_records {σ : Type} (table : String) (conditions : List (String × Value))
    (connect : EngineReply Unit)
    (engineRun : Stmt → σ → EngineReply RunResult × σ) (st : σ) : Envelope × σ :=
  match connect with
  | .err e => (failureEnv e, st)
  | .ok _ =>
    let (reply, st') := engineRun (delete_records_stmt table conditions) st
    let (status, result) := execute_run reply
    if status then (successEnv (.runInfo result), st')
    else (failureEnv "Delete operation failed.", st')

/-! ## `db_info` and the filesystem -/

/-- The filesystem facts `db_info` reads about the database path:
`os.path.exists`, `os.path.getsize`, `os.path.getmtime` (the modification
time stands in for the ISO-8601 string derived from it). -/
structure FsState where
  fileExists : Bool
  size : Nat
  mtime : Int
  deriving DecidableEq, Repr

/-- Modelled from the semantics of `sqlite3.connect` (the embedded engine's
open-by-path): opening a connection to a path whose file does not exist
creates an empty (zero-byte) database file at that moment; an existing file
is left untouched.  `now` is the creation timestamp. -/
def connectFs (fs : FsState) (now : Int) : FsState :=
  if fs.fileExists then fs else { fileExists := true, size := 0, mtime := now }

/-- `db_info`, lines 77–112: constructs the handler (i.e. connects — which
creates the file if absent), then checks existence/size/mtime, then counts
user tables via `list_tables`; a `list_tables` failure yields
`tableCount = 0`, not an error.  An exception from `sqlite3.connect` is
caught by the outer `try/except`. -/
def db_info (absPath : String) (fs : FsState) (now : Int) (connect : EngineReply Unit)
    (engineQuery : Stmt → EngineReply (List Row)) : Envelope :=
  match connect with
  | .err e => failureEnv e
  | .ok _ =>
    let fs' := connectFs fs now
    let exs := fs'.fileExists
    let size := if exs then fs'.size else 0
    let modified := if exs then some fs'.mtime else none
    let (status, tables) := execute_query (engineQuery { sql := listTablesSql, values := [] })
    successEnv (.infoData absPath exs size modified (if status then tables.length else 0))

/-- `SQLiteHandler.list_tables`, lines 65–68: run the fixed catalog query
through `execute_query`. -/
def list_tables (engineQuery : Stmt → EngineReply (List Row)) : Bool × List Row :=
  execute_query (engineQuery { sql := listTablesSql, values := [] })

/-! ## Catalog-query semantics (for `list_tables`)

Modelled from the semantics of the embedded engine: the fixed query
`SELECT name FROM sqlite_master WHERE type='table' AND name NOT LIKE
'sqlite_%'` returns, for each catalog row whose `type` column is `table` and
whose `name` does not match the pattern, a one-column row `{name: ...}`.
SQLite's `LIKE` is case-insensitive on ASCII and `_` matches any single
character, so `name LIKE 'sqlite_%'` holds exactly when the name has at
least 7 characters and its first 6 characters case-fold to `sqlite`. -/

/-- One row of `sqlite_master` as far as the catalog query reads it. -/
structure MasterRow where
  rowType : String
  name : String
  deriving DecidableEq, Repr

/-- SQLite's evaluation of `name LIKE 'sqlite_%'`: at least 7 characters,
and the first 6 case-fold to `sqlite` (`_` matches the 7th character, `%`
the rest). -/
def likeSqlitePattern (s : String) : Bool :=
  decide ((s.data.take 6).map Char.toLower = "sqlite".data) && decide (7 ≤ s.data.length)

/-- The engine's result rows for the catalog query in `listTablesSql`. -/
def sqlite_master_query (master : List MasterRow) : List Row :=
  (master.filter (fun r => r.rowType == "table" && !likeSqlitePattern r.name)).map
    (fun r => ([("name", Value.str r.name)] : Row))

/-! ## Single-table engine semantics (for the insert/read round trip)

Modelled from the semantics of the embedded engine for the two statement
shapes the gateway generates: `INSERT INTO t (c1,...,cn) VALUES (?,...,?)`
on a rowid table (the new row gets key `max existing key + 1`, reported as
`lastrowid`), and `SELECT * FROM t WHERE pk=?` (rows whose column equals the
bound value, each row rendered as the dict of all columns). -/

/-- One user table: the integer-primary-key column's name, the remaining
column names in declaration order, and the stored rows as key/values. -/
structure TableState where
  pk : String
  cols : List String
  rows : List (Int × List Value)
  deriving DecidableEq, Repr

/-- The fresh rowid SQLite assigns: one more than the largest existing key
(and at least 1 on an empty table). -/
def nextRowId (t : TableState) : Int :=
  (t.rows.map Prod.fst).foldr max 0 + 1

/-- Engine semantics of the generated `INSERT INTO t (cols) VALUES (?...)`
when the supplied column list is exactly the table's non-key columns: the
row is appended with a fresh key, which is reported as `lastrowid`. -/
def insertSem (t : TableState) (data : List (String × Value)) : TableState × Int :=
  let newId := nextRowId t
  ({ t with rows := t.rows ++ [(newId, data.map Prod.snd)] }, newId)

/-- How a stored row is rendered as a result dict: the key column first,
then the remaining columns in declaration order. -/
def rowRecord (t : TableState) (kv : Int × List Value) : Row :=
  (t.pk, Value.int kv.1) :: t.cols.zip kv.2

/-- Engine semantics of the generated `SELECT * FROM t WHERE k1=? AND ...`:
the rows on which every condition column's rendered value equals the bound
value, in storage order. -/
def selectWhereSem (t : TableState) (conds : List (String × Value)) : List Row :=
  (t.rows.filter
    (fun kv => conds.all (fun c => (rowRecord t kv).lookup c.1 == some c.2))).map
    (rowRecord t)

/-! ## Helper notions for the statements of the claims -/

/-- The number of positional placeholders (`?` characters) in a piece of SQL
text. -/
def countQ (s : String) : Nat := s.data.count '?'

/-- The text the `read_records` builder appends after the WHERE section:
nothing without a limit, ` LIMIT n` with a limit, plus ` OFFSET m` when an
offset accompanies the limit. -/
def limitSuffix : Option Int → Option Int → String
  | some n, none => " LIMIT " ++ toString n
  | some n, some m => " LIMIT " ++ toString n ++ " OFFSET " ++ toString m
  | none, _ => ""

/-! ## Lemmas -/

theorem countQ_append (a b : String) : countQ (a ++ b) = countQ a + countQ b := by
  simp [countQ, String.data_append]

theorem countQ_joinSep (sep : String) (hsep : countQ sep = 0) (l : List String) :
    countQ (joinSep sep l) = (l.map countQ).sum := by
  induction l with
  | nil => simp [joinSep, countQ]
  | cons x xs ih =>
    cases xs with
    | nil => simp [joinSep]
    | cons y ys =>
      simp only [joinSep, List.map_cons, List.sum_cons, countQ_append, hsep] at *
      omega

theorem countQ_eqTerm (k : String) (hk : countQ k = 0) : countQ (k ++ "=?") = 1 := by
  rw [countQ_append, hk]
  rfl

theorem le_foldr_max (x : Int) (l : List Int) (h : x ∈ l) : x ≤ l.foldr max 0 := by
  induction l with
  | nil => simp at h
  | cons a t ih =>
    simp only [List.foldr_cons]
    rcases List.mem_cons.mp h with rfl | h'
    · exact le_max_left _ _
    · exact le_trans (ih h') (le_max_right _ _)

/-- The `read_records` builder in normal form: the statement for arbitrary
limit/offset is the no-limit statement with `limitSuffix` appended, and the
bound values do not depend on limit/offset. -/
theorem read_records_stmt_eq (table : String) (conditions : List (String × Value))
    (lim off : Option Int) :
    read_records_stmt table conditions lim off =
      { sql := (read_records_stmt table conditions none none).sql ++ limitSuffix lim off
        values := (read_records_stmt table conditions none none).values } := by
  cases h : conditions.isEmpty <;>
    cases lim <;> cases off <;>
      simp [read_records_stmt, h, limitSuffix, String.append_assoc]

/-- The joined `k=?` equality terms contain one placeholder per key, when
neither the separator nor the keys contain `?`. -/
theorem countQ_joinSep_eqTerms (sep : String) (hsep : countQ sep = 0)
    (l : List (String × Value)) (hk : ∀ k ∈ l.map Prod.fst, countQ k = 0) :
    countQ (joinSep sep (l.map (fun kv => kv.1 ++ "=?"))) = l.length := by
  rw [countQ_joinSep sep hsep, List.map_map]
  rw [List.sum_eq_card_nsmul _ 1, smul_eq_mul, mul_one, List.length_map]
  intro x hx
  simp only [List.mem_map, Function.comp_apply] at hx
  obtain ⟨kv, hkv, rfl⟩ := hx
  exact countQ_eqTerm kv.1 (hk kv.1 (List.mem_map_of_mem Prod.fst hkv))

/-! ## Claims -/

/-- C3: every `create_record` call with a column-value mapping of N entries
generates `INSERT INTO <table> (<cols>) VALUES (<placeholders>)` with
exactly N positional placeholders, and binds exactly the supplied values in
the mapping's iteration order.  (The placeholder count is stated for
identifiers that do not themselves contain a `?` character.) -/
theorem create_record_placeholders_and_values (table : String)
    (data : List (String × Value))
    (htable : countQ table = 0)
    (hkeys : ∀ k ∈ data.map Prod.fst, countQ k = 0) :
    countQ (create_record_stmt table data).sql = data.length ∧
    (create_record_stmt table data).values = data.map Prod.snd := by
  refine ⟨?_, rfl⟩
  simp only [create_record_stmt, countQ_append, htable]
  rw [countQ_joinSep ", " rfl (data.map Prod.fst)]
  rw [countQ_joinSep ", " rfl (List.replicate data.length "?")]
  have hcols : ((data.map Prod.fst).map countQ).sum = 0 := by
    apply List.sum_eq_zero
    intro x hx
    obtain ⟨k, hk, rfl⟩ := List.mem_map.mp hx
    exact hkeys k hk
  have hph : ((List.replicate data.length "?").map countQ).sum = data.length := by
    rw [List.map_replicate]
    simp [countQ, List.sum_replicate]
  rw [hcols, hph]
  have h1 : countQ "INSERT INTO " = 0 := rfl
  have h2 : countQ " (" = 0 := rfl
  have h3 : countQ ") VALUES (" = 0 := rfl
  have h4 : countQ ")" = 0 := rfl
  rw [h1, h2, h3, h4]
  omega

/-- C3 witness: a concrete two-column insert generates two placeholders and
binds the two values in order. -/
theorem create_record_placeholders_and_values_witness :
    countQ (create_record_stmt "users" [("a", Value.int 1), ("b", Value.str "x")]).sql = 2 ∧
    (create_record_stmt "users" [("a", Value.int 1), ("b", Value.str "x")]).values =
      [Value.int 1, Value.str "x"] :=
  create_record_placeholders_and_values "users" [("a", Value.int 1), ("b", Value.str "x")]
    (by decide) (by decide)

/-- C4: `read_records` appends ` LIMIT n` (and nothing else) when only a
limit is given; appends ` LIMIT n OFFSET m` when both limit and offset are
given; and appends neither clause when an offset is given without a limit
(the offset is silently dropped and the statement is identical to the one
with no limit and no offset). -/
theorem read_records_limit_offset_clauses (table : String)
    (conditions : List (String × Value)) (n m : Int) :
    (read_records_stmt table conditions (some n) none).sql =
      (read_records_stmt table conditions none none).sql ++ (" LIMIT " ++ toString n) ∧
    (read_records_stmt table conditions (some n) (some m)).sql =
      (read_records_stmt table conditions none none).sql ++
        (" LIMIT " ++ toString n ++ " OFFSET " ++ toString m) ∧
    read_records_stmt table conditions none (some m) =
      read_records_stmt table conditions none none := by
  refine ⟨?_, ?_, ?_⟩ <;> rw [read_records_stmt_eq table conditions] <;>
    simp [limitSuffix, String.append_assoc]

/-- C5: `read_records` with non-empty conditions appends
`WHERE k1=? AND k2=? ...` with one equality term per condition key in
iteration order, and binds exactly the condition values in that key order. -/
theorem read_records_where_and_values (table : String)
    (conditions : List (String × Value)) (lim off : Option Int)
    (h : conditions ≠ []) :
    read_records_stmt table conditions lim off =
      { sql := "SELECT * FROM " ++ table ++ " WHERE " ++
            joinSep " AND " (conditions.map (fun kv => kv.1 ++ "=?")) ++
            limitSuffix lim off
        values := conditions.map Prod.snd } := by
  rw [read_records_stmt_eq table conditions]
  have hne : conditions.isEmpty = false := by
    cases conditions with
    | nil => exact absurd rfl h
    | cons a l => rfl
  simp [read_records_stmt, hne, String.append_assoc]

/-- C5 witness: two concrete conditions produce `WHERE a=? AND b=?` with
bound values `[1, 2]`. -/
theorem read_records_where_and_values_witness :
    read_records_stmt "t" [("a", Value.int 1), ("b", Value.int 2)] none none =
      { sql := "SELECT * FROM t WHERE a=? AND b=?"
        values := [Value.int 1, Value.int 2] } := by
  rw [read_records_where_and_values "t" [("a", Value.int 1), ("b", Value.int 2)] none none
    (by decide)]
  rfl

/-- C6: `update_records` generates
`UPDATE <table> SET k1=?, ... WHERE c1=? AND ...` whose placeholder count is
the number of SET columns plus the number of conditions (stated for
identifiers without a `?` character), binds all column values followed by
all condition values in that order, and on a successful run returns the
success envelope whose payload is the `execute_run` result carrying
`lastrowid` and `total_changes`. -/
theorem update_records_stmt_and_payload (table : String)
    (data conditions : List (String × Value))
    (htable : countQ table = 0)
    (hdk : ∀ k ∈ data.map Prod.fst, countQ k = 0)
    (hck : ∀ k ∈ conditions.map Prod.fst, countQ k = 0) :
    (update_records_stmt table data conditions).sql =
      "UPDATE " ++ table ++ " SET " ++
        joinSep ", " (data.map (fun kv => kv.1 ++ "=?")) ++ " WHERE " ++
        joinSep " AND " (conditions.map (fun kv => kv.1 ++ "=?")) ∧
    (update_records_stmt table data conditions).values =
      data.map Prod.snd ++ conditions.map Prod.snd ∧
    countQ (update_records_stmt table data conditions).sql =
      data.length + conditions.length ∧
    (∀ (σ : Type) (engineRun : Stmt → σ → EngineReply RunResult × σ) (st st' : σ)
        (r : RunResult),
      engineRun (update_records_stmt table data conditions) st = (.ok r, st') →
      update_records table data conditions (.ok ()) engineRun st =
        (successEnv (.runInfo (some r)), st')) := by
  refine ⟨rfl, rfl, ?_, ?_⟩
  · simp only [update_records_stmt, countQ_append, htable]
    rw [countQ_joinSep_eqTerms ", " rfl data hdk]
    rw [countQ_joinSep_eqTerms " AND " rfl conditions hck]
    have h1 : countQ "UPDATE " = 0 := rfl
    have h2 : countQ " SET " = 0 := rfl
    have h3 : countQ " WHERE " = 0 := rfl
    rw [h1, h2, h3]
    omega
  · intro σ engineRun st st' r hrun
    simp [update_records, hrun, execute_run]

/-- C6 witness: a concrete update with one SET column and one condition. -/
theorem update_records_stmt_and_payload_witness :
    (update_records_stmt "t" [("a", Value.int 1)] [("id", Value.int 7)]).sql =
      "UPDATE " ++ "t" ++ " SET " ++
        joinSep ", " ([("a", Value.int 1)].map (fun kv => kv.1 ++ "=?")) ++ " WHERE " ++
        joinSep " AND " ([("id", Value.int 7)].map (fun kv => kv.1 ++ "=?")) ∧
    (update_records_stmt "t" [("a", Value.int 1)] [("id", Value.int 7)]).values =
      [("a", Value.int 1)].map Prod.snd ++ [("id", Value.int 7)].map Prod.snd ∧
    countQ (update_records_stmt "t" [("a", Value.int 1)] [("id", Value.int 7)]).sql = 1 + 1 ∧
    (∀ (σ : Type) (engineRun : Stmt → σ → EngineReply RunResult × σ) (st st' : σ)
        (r : RunResult),
      engineRun (update_records_stmt "t" [("a", Value.int 1)] [("id", Value.int 7)]) st =
        (.ok r, st') →
      update_records "t" [("a", Value.int 1)] [("id", Value.int 7)] (.ok ()) engineRun st =
        (successEnv (.runInfo (some r)), st')) :=
  update_records_stmt_and_payload "t" [("a", Value.int 1)] [("id", Value.int 7)]
    (by decide) (by decide) (by decide)

/-- A driver that raises on every statement (used for the exception-handling
counterexample and witness). -/
def raisingQueryEngine : Stmt → EngineReply (List Row) := fun _ => .err "boom"

/-- A stateful driver that raises on every statement, leaving the database
untouched. -/
def raisingRunEngine : Stmt → Unit → EngineReply RunResult × Unit :=
  fun _ st => (.err "boom", st)

/-- A filesystem on which the configured database file exists, 42 bytes,
last modified at time 7. -/
def fsPresent : FsState := { fileExists := true, size := 42, mtime := 7 }

/-- C2 counterexample: `db_info` is an operation, and when the driver raises
while executing its catalog statement the exception is caught inside
`execute_query` (lines 49–51) — but `db_info` then returns a **success**
envelope with `tableCount: 0` (lines 100–109), with no `isError` key, not a
failure envelope.  So "every operation returns a failure envelope on an
execution exception" is false at this concrete input. -/
theorem db_info_catalog_exception_counterexample :
    db_info "/data/app.db" fsPresent 5 (.ok ()) raisingQueryEngine =
      successEnv (.infoData "/data/app.db" true 42 (some 7) 0) ∧
    (db_info "/data/app.db" fsPresent 5 (.ok ()) raisingQueryEngine).isError ≠
      some true := by
  constructor
  · rfl
  · decide

/-- Opening the connection leaves (or creates) the file, so it exists
afterwards. -/
theorem connectFs_fileExists (fs : FsState) (now : Int) :
    (connectFs fs now).fileExists = true := by
  simp only [connectFs]
  split
  · assumption
  · rfl

/-- C2 (amended): for every operation and every input, any exception raised
during statement construction or execution is caught inside the operation
and never propagates to the transport layer — every operation other than
`db_info` returns a failure envelope (isError true); `db_info` returns a
failure envelope on a `sqlite3.connect` exception, but an exception in its
catalog query is caught inside `execute_query` and yields a *success*
envelope reporting `tableCount: 0`. -/
theorem all_ops_exception_handling (σ : Type) (st st' : σ) (e : String)
    (engineQuery : Stmt → EngineReply (List Row))
    (engineRun : Stmt → σ → EngineReply RunResult × σ)
    (sqlText absPath : String) (vals : List Value) (tableName table : String)
    (data conditions : List (String × Value)) (lim off : Option Int)
    (fs : FsState) (now : Int) :
    (engineQuery { sql := sqlText, values := vals } = .err e →
      query sqlText vals (.ok ()) engineQuery = failureEnv "Query execution failed.") ∧
    (engineQuery { sql := listTablesSql, values := [] } = .err e →
      listing_tables (.ok ()) engineQuery = failureEnv "Failed to list tables.") ∧
    (engineQuery (table_schema_stmt tableName) = .err e →
      get_table_schema tableName (.ok ()) engineQuery =
        failureEnv "Failed to get table schema.") ∧
    (engineQuery (read_records_stmt table conditions lim off) = .err e →
      read_records table conditions lim off (.ok ()) engineQuery =
        failureEnv "Failed to read records.") ∧
    (engineRun (create_record_stmt table data) st = (.err e, st') →
      create_record table data (.ok ()) engineRun st =
        (failureEnv "Insert operation failed.", st')) ∧
    (engineRun (update_records_stmt table data conditions) st = (.err e, st') →
      update_records table data conditions (.ok ()) engineRun st =
        (failureEnv "Update operation failed.", st')) ∧
    (engineRun (delete_records_stmt table conditions) st = (.err e, st') →
      delete_records table conditions (.ok ()) engineRun st =
        (failureEnv "Delete operation failed.", st')) ∧
    (engineQuery { sql := listTablesSql, values := [] } = .err e →
      db_info absPath fs now (.ok ()) engineQuery =
        successEnv (.infoData absPath true (connectFs fs now).size
          (some (connectFs fs now).mtime) 0)) ∧
    query sqlText vals (.err e) engineQuery = failureEnv e ∧
    create_record table data (.err e) engineRun st = (failureEnv e, st) ∧
    db_info absPath fs now (.err e) engineQuery = failureEnv e := by
  refine ⟨?_, ?_, ?_, ?_, ?_, ?_, ?_, ?_, rfl, rfl, rfl⟩ <;> intro h <;>
    simp [query, listing_tables, get_table_schema, read_records, create_record,
      update_records, delete_records, db_info, execute_query, execute_run,
      connectFs_fileExists, h]

/-- C2 witness: at a concrete malformed table name (containing a statement
terminator) and a driver that raises, each of the seven non-metadata
operations returns its failure envelope, while `db_info` returns the success
envelope with `tableCount: 0` on a catalog exception and a failure envelope
on a connect exception. -/
theorem all_ops_exception_handling_witness :
    query "SELECT * FROM t; DROP TABLE t" [] (.ok ()) raisingQueryEngine =
      failureEnv "Query execution failed." ∧
    listing_tables (.ok ()) raisingQueryEngine = failureEnv "Failed to list tables." ∧
    get_table_schema "t; DROP TABLE t" (.ok ()) raisingQueryEngine =
      failureEnv "Failed to get table schema." ∧
    read_records "t; DROP TABLE t" [] none none (.ok ()) raisingQueryEngine =
      failureEnv "Failed to read records." ∧
    create_record "t; DROP TABLE t" [("a", Value.int 1)] (.ok ()) raisingRunEngine () =
      (failureEnv "Insert operation failed.", ()) ∧
    update_records "t; DROP TABLE t" [("a", Value.int 1)] [("id", Value.int 7)] (.ok ())
      raisingRunEngine () = (failureEnv "Update operation failed.", ()) ∧
    delete_records "t; DROP TABLE t" [("id", Value.int 7)] (.ok ()) raisingRunEngine () =
      (failureEnv "Delete operation failed.", ()) ∧
    db_info "/data/app.db" fsPresent 5 (.ok ()) raisingQueryEngine =
      successEnv (.infoData "/data/app.db" true 42 (some 7) 0) ∧
    db_info "/data/app.db" fsPresent 5 (.err "boom") raisingQueryEngine =
      failureEnv "boom" := by
  have h := all_ops_exception_handling Unit () () "boom" raisingQueryEngine
    raisingRunEngine "SELECT * FROM t; DROP TABLE t" "/data/app.db" []
    "t; DROP TABLE t" "t; DROP TABLE t" [("a", Value.int 1)] [("id", Value.int 7)]
    none none fsPresent 5
  refine ⟨h.1 rfl, h.2.1 rfl, h.2.2.1 rfl, h.2.2.2.1 rfl, h.2.2.2.2.1 rfl,
    h.2.2.2.2.2.1 rfl, h.2.2.2.2.2.2.1 rfl, ?_, h.2.2.2.2.2.2.2.2.2.2⟩
  have h8 := h.2.2.2.2.2.2.2.1 rfl
  simpa [connectFs, fsPresent] using h8

/-- The envelope invariant: exactly one content item, of type `text`; the
`isError` key present (and `True`) exactly on failure, absent on success. -/
def envelopeOk (env : Envelope) (failed : Bool) : Prop :=
  (∃ tv, env.content = [{ itemType := "text", text := tv }]) ∧
  env.isError = (if failed then some true else none)

/-- C7: every response of every operation, for every driver behavior, is an
envelope with exactly one content item of type `text`, whose `isError` flag
is present and `True` exactly when the operation fails (a raised connect or
a failed statement run) and absent on success.  For `db_info` a failing
catalog query is not a failure of the operation (it just reports
`tableCount = 0`). -/
theorem all_ops_envelope_invariant (σ : Type) (st : σ) (connect : EngineReply Unit)
    (engineQuery : Stmt → EngineReply (List Row))
    (engineRun : Stmt → σ → EngineReply RunResult × σ)
    (absPath : String) (fs : FsState) (now : Int)
    (sqlText : String) (vals : List Value) (tableName table : String)
    (data conditions : List (String × Value)) (lim off : Option Int) :
    envelopeOk (db_info absPath fs now connect engineQuery) connect.isErr ∧
    envelopeOk (query sqlText vals connect engineQuery)
      (connect.isErr || (engineQuery { sql := sqlText, values := vals }).isErr) ∧
    envelopeOk (listing_tables connect engineQuery)
      (connect.isErr || (engineQuery { sql := listTablesSql, values := [] }).isErr) ∧
    envelopeOk (get_table_schema tableName connect engineQuery)
      (connect.isErr || (engineQuery (table_schema_stmt tableName)).isErr) ∧
    envelopeOk (read_records table conditions lim off connect engineQuery)
      (connect.isErr || (engineQuery (read_records_stmt table conditions lim off)).isErr) ∧
    envelopeOk (create_record table data connect engineRun st).1
      (connect.isErr || (engineRun (create_record_stmt table data) st).1.isErr) ∧
    envelopeOk (update_records table data conditions connect engineRun st).1
      (connect.isErr || (engineRun (update_records_stmt table data conditions) st).1.isErr) ∧
    envelopeOk (delete_records table conditions connect engineRun st).1
      (connect.isErr || (engineRun (delete_records_stmt table conditions) st).1.isErr) := by
  cases connect with
  | err e =>
    simp [envelopeOk, db_info, query, listing_tables, get_table_schema, read_records,
      create_record, update_records, delete_records, failureEnv, EngineReply.isErr]
  | ok u =>
    refine ⟨?_, ?_, ?_, ?_, ?_, ?_, ?_, ?_⟩
    · rcases hq : engineQuery { sql := listTablesSql, values := [] } with rows | e <;>
        simp [envelopeOk, db_info, execute_query, hq, successEnv, EngineReply.isErr]
    · rcases hq : engineQuery { sql := sqlText, values := vals } with rows | e <;>
        simp [envelopeOk, query, execute_query, hq, successEnv, failureEnv,
          EngineReply.isErr]
    · rcases hq : engineQuery { sql := listTablesSql, values := [] } with rows | e <;>
        simp [envelopeOk, listing_tables, execute_query, hq, successEnv, failureEnv,
          EngineReply.isErr]
    · rcases hq : engineQuery (table_schema_stmt tableName) with rows | e <;>
        simp [envelopeOk, get_table_schema, execute_query, hq, successEnv, failureEnv,
          EngineReply.isErr]
    · rcases hq : engineQuery (read_records_stmt table conditions lim off) with rows | e <;>
        simp [envelopeOk, read_records, execute_query, hq, successEnv, failureEnv,
          EngineReply.isErr]
    · rcases hr : engineRun (create_record_stmt table data) st with ⟨reply, st2⟩
      cases reply <;>
        simp [envelopeOk, create_record, execute_run, hr, successEnv, failureEnv,
          EngineReply.isErr]
    · rcases hr : engineRun (update_records_stmt table data conditions) st with ⟨reply, st2⟩
      cases reply <;>
        simp [envelopeOk, update_records, execute_run, hr, successEnv, failureEnv,
          EngineReply.isErr]
    · rcases hr : engineRun (delete_records_stmt table conditions) st with ⟨reply, st2⟩
      cases reply <;>
        simp [envelopeOk, delete_records, execute_run, hr, successEnv, failureEnv,
          EngineReply.isErr]

/-- A filesystem on which the configured database file does not exist. -/
def fsAbsent : FsState := { fileExists := false, size := 0, mtime := 0 }

/-- A driver connected to an empty database: every query returns no rows
(in particular the catalog query on the file `sqlite3.connect` just
created). -/
def emptyDbEngine : Stmt → EngineReply (List Row) := fun _ => .ok []

/-- C1 counterexample: on a nonexistent path, `db_info` does **not** return
the payload `{exists: false, size: 0, lastModified: null, tableCount: 0}`.
Constructing the `SQLiteHandler` calls `sqlite3.connect`, which creates the
(empty) database file *before* the `os.path.exists` check on line 93, so the
payload reports `exists: true` and a last-modified timestamp. -/
theorem db_info_nonexistent_counterexample :
    db_info "/data/app.db" fsAbsent 5 (.ok ()) emptyDbEngine =
      successEnv (.infoData "/data/app.db" true 0 (some 5) 0) ∧
    db_info "/data/app.db" fsAbsent 5 (.ok ()) emptyDbEngine ≠
      successEnv (.infoData "/data/app.db" false 0 none 0) := by
  constructor
  · rfl
  · decide

/-- C1 (amended): on a nonexistent path `db_info` does not fail, but —
because opening the connection creates the empty database file before the
existence check — its success payload is
`{exists: true, size: 0, lastModified: <file creation time>, tableCount: 0}`
rather than `{exists: false, size: 0, lastModified: null, tableCount: 0}`. -/
theorem db_info_nonexistent (absPath : String) (fs : FsState) (now : Int)
    (engineQuery : Stmt → EngineReply (List Row))
    (hfs : fs.fileExists = false)
    (hq : engineQuery { sql := listTablesSql, values := [] } = .ok []) :
    db_info absPath fs now (.ok ()) engineQuery =
      successEnv (.infoData absPath true 0 (some now) 0) := by
  simp [db_info, connectFs, hfs, execute_query, hq]

/-- C1 witness: the amended statement at a concrete nonexistent path. -/
theorem db_info_nonexistent_witness :
    db_info "/data/app.db" fsAbsent 5 (.ok ()) emptyDbEngine =
      successEnv (.infoData "/data/app.db" true 0 (some 5) 0) :=
  db_info_nonexistent "/data/app.db" fsAbsent 5 emptyDbEngine rfl rfl

/-- A name that begins with the reserved prefix `sqlite_` matches the
catalog query's `LIKE 'sqlite_%'` pattern. -/
theorem likeSqlitePattern_of_reservedName (n : String)
    (h : "sqlite_".data <+: n.data) : likeSqlitePattern n = true := by
  obtain ⟨rest, hr⟩ := h
  simp only [likeSqlitePattern, Bool.and_eq_true, decide_eq_true_eq]
  constructor
  · rw [← hr, List.take_append_of_le_length (by decide)]
    decide
  · rw [← hr, List.length_append]
    have : "sqlite_".data.length = 7 := by decide
    omega

/-- C9: for every catalog state and every driver implementing the catalog
query's semantics, no row returned by `SQLiteHandler.list_tables` names a
table whose name begins with the engine-reserved prefix `sqlite_`; only
user-created `table` entries of the catalog are returned. -/
theorem list_tables_excludes_reserved (master : List MasterRow)
    (engineQuery : Stmt → EngineReply (List Row))
    (hq : engineQuery { sql := listTablesSql, values := [] } =
      .ok (sqlite_master_query master)) :
    ∀ row ∈ (list_tables engineQuery).2,
      ∃ n, row = [("name", Value.str n)] ∧ ¬ ("sqlite_".data <+: n.data) := by
  intro row hrow
  simp only [list_tables, execute_query, hq] at hrow
  simp only [sqlite_master_query, List.mem_map, List.mem_filter,
    Bool.and_eq_true, Bool.not_eq_true'] at hrow
  obtain ⟨r, ⟨_, _, hlike⟩, rfl⟩ := hrow
  refine ⟨r.name, rfl, fun hpre => ?_⟩
  rw [likeSqlitePattern_of_reservedName r.name hpre] at hlike
  exact absurd hlike (by decide)

/-- A concrete catalog holding one user table, one reserved table, and one
index entry. -/
def masterSample : List MasterRow :=
  [{ rowType := "table", name := "users" },
   { rowType := "table", name := "sqlite_sequence" },
   { rowType := "index", name := "users_idx" }]

/-- A driver serving the catalog query over `masterSample`. -/
def sampleCatalogEngine : Stmt → EngineReply (List Row) :=
  fun _ => .ok (sqlite_master_query masterSample)

/-- C9 witness: on the concrete catalog, `list_tables` returns exactly the
`users` row, and the theorem applies to it. -/
theorem list_tables_excludes_reserved_witness :
    (list_tables sampleCatalogEngine).2 = [[("name", Value.str "users")]] ∧
    ∃ n, ([(("name" : String), Value.str "users")] : Row) = [("name", Value.str n)] ∧
      ¬ ("sqlite_".data <+: n.data) := by
  constructor
  · decide
  · exact list_tables_excludes_reserved masterSample sampleCatalogEngine rfl
      [("name", Value.str "users")] (by decide)

/-- C10: with an empty conditions mapping, `update_records` and
`delete_records` generate a statement whose WHERE clause body is empty (the
text ends in `WHERE ` with nothing after it) — a syntactically invalid
statement, which the engine rejects.  When the driver raises on that
statement without touching the database, the operation returns its failure
envelope and the database state is unchanged; no unconditional update or
delete of all rows is issued. -/
theorem empty_conditions_never_update_all (σ : Type) (st : σ)
    (table : String) (data : List (String × Value))
    (engineRun : Stmt → σ → EngineReply RunResult × σ) (e1 e2 : String) :
    (update_records_stmt table data []).sql =
      "UPDATE " ++ table ++ " SET " ++
        joinSep ", " (data.map (fun kv => kv.1 ++ "=?")) ++ " WHERE " ∧
    (delete_records_stmt table []).sql = "DELETE FROM " ++ table ++ " WHERE " ∧
    (engineRun (update_records_stmt table data []) st = (.err e1, st) →
      update_records table data [] (.ok ()) engineRun st =
        (failureEnv "Update operation failed.", st)) ∧
    (engineRun (delete_records_stmt table []) st = (.err e2, st) →
      delete_records table [] (.ok ()) engineRun st =
        (failureEnv "Delete operation failed.", st)) := by
  refine ⟨?_, ?_, ?_, ?_⟩
  · simp [update_records_stmt, joinSep]
  · simp [delete_records_stmt, joinSep]
  · intro h
    simp [update_records, h, execute_run]
  · intro h
    simp [delete_records, h, execute_run]

/-- A stateful driver that — like SQLite's parser — rejects any statement
whose text ends in `WHERE ` with an empty clause body, leaving the state
untouched; other statements succeed and bump the state. -/
def rejectEmptyWhereEngine : Stmt → Nat → EngineReply RunResult × Nat :=
  fun s st =>
    if "WHERE ".data.isSuffixOf s.sql.data then (.err "incomplete input", st)
    else (.ok { lastID := 1, changes := 1 }, st + 1)

/-- C10 witness: concrete update and delete calls with empty conditions
against the rejecting driver return their failure envelopes with the state
unchanged. -/
theorem empty_conditions_never_update_all_witness :
    update_records "t" [("a", Value.int 1)] [] (.ok ()) rejectEmptyWhereEngine 0 =
      (failureEnv "Update operation failed.", 0) ∧
    delete_records "t" [] (.ok ()) rejectEmptyWhereEngine 0 =
      (failureEnv "Delete operation failed.", 0) := by
  have h := empty_conditions_never_update_all Nat 0 "t" [("a", Value.int 1)]
    rejectEmptyWhereEngine "incomplete input" "incomplete input"
  exact ⟨h.2.2.1 (by decide), h.2.2.2 (by decide)⟩

/-- The fresh rowid differs from every key already stored. -/
theorem nextRowId_fresh (t : TableState) :
    ∀ k ∈ t.rows.map Prod.fst, k ≠ nextRowId t := by
  intro k hk
  have := le_foldr_max k _ hk
  simp only [nextRowId]
  omega

/-- Selecting on the key column for a key that no pre-existing row carries
returns exactly the newly appended row, rendered with the key first. -/
theorem selectWhere_pk_singleton (t : TableState) (key : Int) (vs : List Value)
    (hfresh : ∀ k ∈ t.rows.map Prod.fst, k ≠ key) :
    selectWhereSem { t with rows := t.rows ++ [(key, vs)] } [(t.pk, Value.int key)] =
      [(t.pk, Value.int key) :: t.cols.zip vs] := by
  have hpred : ∀ kv : Int × List Value,
      ([((t.pk : String), Value.int key)].all
        (fun c => (rowRecord { t with rows := t.rows ++ [(key, vs)] } kv).lookup c.1 ==
          some c.2)) = (kv.1 == key) := by
    intro kv
    simp [rowRecord, List.lookup]
  simp only [selectWhereSem, List.filter_append]
  rw [List.filter_congr (fun kv _ => hpred kv),
    List.filter_congr (fun kv _ => hpred kv)]
  have hold : t.rows.filter (fun kv => kv.1 == key) = [] := by
    apply List.filter_eq_nil_iff.mpr
    intro kv hkv
    simp only [beq_iff_eq]
    exact hfresh kv.1 (List.mem_map_of_mem Prod.fst hkv)
  rw [hold]
  simp [rowRecord]

/-- C8: inserting a record whose columns are exactly the table's non-key
columns and then reading with the generated key as the sole condition
returns exactly one record, equal to the inserted data together with the
generated key.  The insert binds exactly the supplied values, and the read
binds exactly the generated key. -/
theorem insert_then_read_roundtrip (tbl : String) (t : TableState)
    (data : List (String × Value)) (hcols : data.map Prod.fst = t.cols) :
    (create_record_stmt tbl data).values = data.map Prod.snd ∧
    (read_records_stmt tbl [(t.pk, Value.int (insertSem t data).2)] none none).values =
      [Value.int (insertSem t data).2] ∧
    selectWhereSem (insertSem t data).1 [(t.pk, Value.int (insertSem t data).2)] =
      [(t.pk, Value.int (insertSem t data).2) :: data] := by
  refine ⟨rfl, rfl, ?_⟩
  show selectWhereSem { t with rows := t.rows ++ [(nextRowId t, data.map Prod.snd)] }
      [(t.pk, Value.int (nextRowId t))] =
    [(t.pk, Value.int (nextRowId t)) :: data]
  rw [selectWhere_pk_singleton t (nextRowId t) (data.map Prod.snd) (nextRowId_fresh t),
    ← hcols, Eq.symm (List.zip_of_prod rfl rfl)]

/-- A concrete two-column table with one pre-existing row, keyed by `id`. -/
def usersTable : TableState :=
  { pk := "id", cols := ["a", "b"], rows := [(1, [Value.int 10, Value.str "u"])] }

/-- C8 witness: inserting `{a: 20, b: "v"}` into the concrete table and
selecting on the generated key returns exactly that record plus the key. -/
theorem insert_then_read_roundtrip_witness :
    (create_record_stmt "users" [("a", Value.int 20), ("b", Value.str "v")]).values =
      [Value.int 20, Value.str "v"] ∧
    (read_records_stmt "users"
      [("id", Value.int (insertSem usersTable
        [("a", Value.int 20), ("b", Value.str "v")]).2)] none none).values =
      [Value.int (insertSem usersTable [("a", Value.int 20), ("b", Value.str "v")]).2] ∧
    selectWhereSem (insertSem usersTable [("a", Value.int 20), ("b", Value.str "v")]).1
      [("id", Value.int (insertSem usersTable
        [("a", Value.int 20), ("b", Value.str "v")]).2)] =
      [[("id", Value.int (insertSem usersTable
          [("a", Value.int 20), ("b", Value.str "v")]).2),
        ("a", Value.int 20), ("b", Value.str "v")]] :=
  insert_then_read_roundtrip "users" usersTable
    [("a", Value.int 20), ("b", Value.str "v")] (by decide)

end SqliteMcp
